import Mathlib

/-
  Verification development for the CineSpaceLocalVideo repository's
  spinning-wheel widget (the "Wheel Geometry & Outcome Engine").

  The source of truth is the React Native component in
  src/unnamed/part_001 (`Spinner`), together with the second, simpler
  `Spinner` implementation embedded in src/components/LiquedGalas.tsx.
  JavaScript numbers are modelled as exact rationals (ℚ); the JS
  remainder operator `%` (truncated division, result signed like the
  dividend) is modelled explicitly by `jsMod`.
-/

set_option maxHeartbeats 1000000

/-- Truncation toward zero of a rational, mirroring the rounding used by
the JavaScript `%` operator: `trunc q = ⌊q⌋` for `q ≥ 0`, `⌈q⌉` for `q < 0`. -/
def qtrunc (q : ℚ) : ℤ :=
  if 0 ≤ q then ⌊q⌋ else ⌈q⌉

/-- The JavaScript remainder operator `a % b` (for `b > 0`):
`a - b * trunc (a / b)`; its result carries the sign of the dividend `a`. -/
def jsMod (a b : ℚ) : ℚ :=
  a - b * (qtrunc (a / b) : ℚ)

/-- Embedding of the `SpinnerItem` type of src/unnamed/part_001 (lines 28-32)
and, identically, of the second spinner in src/components/LiquedGalas.tsx:
`id : string`, optional `label`, optional `color`. -/
structure SpinnerItem where
  id : String
  label : Option String
  color : Option String
deriving DecidableEq, Repr

/-- The `DEFAULT_ITEMS` constant of src/unnamed/part_001 (lines 97-106):
four items alternating with four `null` slots. -/
def DEFAULT_ITEMS : List (Option SpinnerItem) :=
  [ some ⟨("1"), some ("🔑"), some ("#F3F7FF")⟩,
    none,
    some ⟨("2"), some ("💰"), some ("#EAF2FF")⟩,
    none,
    some ⟨("3"), some ("⚡️"), some ("#F3F7FF")⟩,
    none,
    some ⟨("4"), some ("🔁"), some ("#EAF2FF")⟩,
    none ]

/-- One command of an SVG path description string, as assembled by the path
helpers of src/unnamed/part_001: `M x y` (move), `A rx ry xAxisRotation
largeArcFlag sweepFlag x y` (elliptical arc), `L x y` (line), `Z` (close the
path).  The numeric template parts stay exact rationals; the endpoint
coordinates come out of trigonometry and live in ℝ. -/
inductive PathCmd where
  | move (p : ℝ × ℝ)
  | arc (rx ry xAxisRotation : ℚ) (la sweep : ℕ) (p : ℝ × ℝ)
  | line (p : ℝ × ℝ)
  | close

/-- The `polarToCartesian` helper (src/unnamed/part_001 lines 44-53):
`angle = ((angleDeg - 90) * π) / 180`, point `(cx + r·cos angle,
cy + r·sin angle)`. -/
noncomputable def polarToCartesian (cx cy r angleDeg : ℚ) : ℝ × ℝ :=
  ⟨(cx : ℝ) + (r : ℝ) * Real.cos (((angleDeg : ℝ) - 90) * Real.pi / 180),
   (cy : ℝ) + (r : ℝ) * Real.sin (((angleDeg : ℝ) - 90) * Real.pi / 180)⟩

/-- The large-arc flag computation
`const largeArc = endAngle - startAngle <= 180 ? 0 : 1;` that appears
verbatim in both `donutSlicePath` (src/unnamed/part_001 line 64) and
`roundedWedgePath` (line 127). -/
def largeArcFlag (startAngle endAngle : ℚ) : ℕ :=
  if endAngle - startAngle ≤ 180 then 0 else 1

/-- The `donutSlicePath` helper (src/unnamed/part_001 lines 55-80): an
annulus wedge bounded by an outer arc, a radial edge, an inner arc and the
closing edge, with both radii inset by 5% of the ring thickness. -/
noncomputable def donutSlicePath (cx cy rOuter rInner startAngle endAngle : ℚ) :
    List PathCmd :=
  let largeArc := largeArcFlag startAngle endAngle
  let inset := (rOuter - rInner) * 0.05
  let rOuterInset := rOuter - inset
  let rInnerInset := rInner + inset
  let p1 := polarToCartesian cx cy rOuterInset endAngle
  let p2 := polarToCartesian cx cy rOuterInset startAngle
  let p3 := polarToCartesian cx cy rInnerInset startAngle
  let p4 := polarToCartesian cx cy rInnerInset endAngle
  [PathCmd.move p1,
   PathCmd.arc rOuterInset rOuterInset 0 largeArc 0 p2,
   PathCmd.line p3,
   PathCmd.arc rInnerInset rInnerInset 0 largeArc 1 p4,
   PathCmd.close]

/-- Projection used to state properties of the arc commands of a path:
the list of large-arc flags, in path order. -/
def arcFlags (cmds : List PathCmd) : List ℕ :=
  cmds.filterMap fun c =>
    match c with
    | PathCmd.arc _ _ _ la _ _ => some la
    | _ => none

/-- What one completed spin hands to the animation system and, on completion,
to the `onStop` callback: the rotation target `toValue` (src/unnamed/part_001
line 180) and the callback arguments `(targetIndex, data[targetIndex])`
(line 188). -/
structure SpinResult where
  toValue : ℚ
  selectedIndex : ℕ
  selectedItem : Option SpinnerItem
deriving DecidableEq, Repr

namespace Spinner

/-- `SEGMENTS = 8` (src/unnamed/part_001 line 143). -/
def SEGMENTS : ℕ := 8

/-- `segAngle = 360 / SEGMENTS` (line 144), i.e. 45 degrees. -/
def segAngle : ℚ := 360 / (SEGMENTS : ℚ)

/-- `gapDeg = 4` (line 147). -/
def gapDeg : ℚ := 4

/-- Line 172 of `spin`: `const current = ((rotation.value % 360) + 360) % 360;`,
the prior rotation normalized into `[0, 360)`. -/
def currentAngle (r : ℚ) : ℚ :=
  jsMod (jsMod r 360 + 360) 360

/-- Line 174 of `spin`:
`const targetCenterFromZero = targetIndex * segAngle + segAngle / 2;`. -/
def targetCenterFromZero (targetIndex : ℕ) : ℚ :=
  (targetIndex : ℚ) * segAngle + segAngle / 2

/-- Lines 178-180 of `spin`: `baseDelta = current + targetCenterFromZero`,
`spins = 5`, `toValue = rotation.value - baseDelta - spins * 360`. -/
def spinToValue (r : ℚ) (targetIndex : ℕ) : ℚ :=
  let baseDelta := currentAngle r + targetCenterFromZero targetIndex
  let spins : ℚ := 5
  r - baseDelta - spins * 360

/-- The observable outcome of `spin` (src/unnamed/part_001 lines 166-191):
the animation target `toValue` and the exact pair the completion callback
receives, `(targetIndex, data[targetIndex])` (line 188).  The random draw
`targetIndex = Math.floor(Math.random() * SEGMENTS)` is passed in as a
parameter. -/
def spin (r : ℚ) (targetIndex : ℕ) (data : List (Option SpinnerItem)) : SpinResult :=
  { toValue := spinToValue r targetIndex,
    selectedIndex := targetIndex,
    selectedItem := data.getD targetIndex none }

/-- The `data` memo of src/unnamed/part_001 (lines 149-156): if the item
list does not have length 8, copy it, push `null` until the length reaches 8
(`items ++ replicate (8 - length) null` is the closed form of the `while`
loop; the replicate count is 0 when the input is longer), then take the
first 8; otherwise return the list unchanged. -/
def dataFn (items : List (Option SpinnerItem)) : List (Option SpinnerItem) :=
  if items.length ≠ SEGMENTS then
    let filled := items ++ List.replicate (SEGMENTS - items.length) none
    filled.take SEGMENTS
  else items

/-- The `roundedWedgePath` helper defined inside the component
(src/unnamed/part_001 lines 118-142): a triangle-like wedge with its outer
arc and a small rounded tip near the hub, the tip spanning
`tipEps = min 8 ((endAngle - startAngle) / 3)` degrees around the slice's
mid angle. -/
noncomputable def roundedWedgePath (cx cy rOuter tipRadius startAngle endAngle : ℚ) :
    List PathCmd :=
  let largeArc := largeArcFlag startAngle endAngle
  let pStart := polarToCartesian cx cy rOuter startAngle
  let pEnd := polarToCartesian cx cy rOuter endAngle
  let mid := (startAngle + endAngle) / 2
  let tipEps := min 8 ((endAngle - startAngle) / 3)
  let tipRight := polarToCartesian cx cy tipRadius (mid - tipEps / 2)
  let tipLeft := polarToCartesian cx cy tipRadius (mid + tipEps / 2)
  [PathCmd.move pEnd,
   PathCmd.arc rOuter rOuter 0 largeArc 0 pStart,
   PathCmd.line tipRight,
   PathCmd.arc tipRadius tipRadius 0 0 1 tipLeft,
   PathCmd.line pEnd,
   PathCmd.close]

/-- `radius = size / 2` (src/unnamed/part_001 line 145). -/
def radius (size : ℚ) : ℚ := size / 2

/-- `innerRadius = radius * 0.58` (line 146). -/
def innerRadius (size : ℚ) : ℚ := radius size * 0.58

/-- Loop-local `segStart = i * segAngle` of the `slices` memo (line 197). -/
def segStart (i : ℕ) : ℚ := (i : ℚ) * segAngle

/-- Loop-local `segEnd = segStart + segAngle` (line 198). -/
def segEnd (i : ℕ) : ℚ := segStart i + segAngle

/-- Loop-local `start = segStart + gapDeg / 2` (line 199), the drawn start
angle of slice `i` after carving half the gap. -/
def sliceStart (i : ℕ) : ℚ := segStart i + gapDeg / 2

/-- Loop-local `end = segEnd - gapDeg / 2` (line 200), the drawn end angle
of slice `i`. -/
def sliceEnd (i : ℕ) : ℚ := segEnd i - gapDeg / 2

/-- One element pushed onto the `slices` array (lines 202-212): the path
description and the fill color. -/
structure SliceEntry where
  path : List PathCmd
  fill : String

/-- The body of the `slices` loop for index `i` (lines 196-213): alternating
fill, and either a tapered wedge (`roundedWedgePath` with outer radius
`radius - 6` and tip radius `max 6 (radius * 0.06)`) or a donut slice
(`donutSlicePath` with inner radius `innerRadius`), both over the drawn
angles `start`/`end`. -/
noncomputable def sliceEntry (size : ℚ) (tapered : Bool) (i : ℕ) : SliceEntry :=
  { path :=
      if tapered then
        roundedWedgePath (radius size) (radius size) (radius size - 6)
          (max 6 (radius size * 0.06)) (sliceStart i) (sliceEnd i)
      else
        donutSlicePath (radius size) (radius size) (radius size - 6)
          (innerRadius size) (sliceStart i) (sliceEnd i),
    fill := if i % 2 = 0 then ("#F1F2F3") else ("rgba(131, 145, 161, 1)") }

/-- The `slices` memo (src/unnamed/part_001 lines 194-215): one entry per
`i` in `[0, 8)`. -/
noncomputable def slices (size : ℚ) (tapered : Bool) : List SliceEntry :=
  (List.range 8).map (sliceEntry size tapered)

end Spinner

/-- Modelled from the spec: the operation
`computeLandingRotation(currentRotationDegrees, targetIndex, segmentCount, extraFullSpins)`
of §4.1 with `segmentCount` fixed at 8.  The source (`spin`,
src/unnamed/part_001 lines 178-180) hardcodes `extraFullSpins = 5` (its
local `spins`); this definition generalizes that constant to a parameter
`k`, exactly as the spec's words describe: `delta = current + targetCenter
+ extraFullSpins·360`, result `currentRotationDegrees − delta`. -/
def computeLandingRotation (r : ℚ) (targetIndex k : ℕ) : ℚ :=
  r - (Spinner.currentAngle r + Spinner.targetCenterFromZero targetIndex + (k : ℚ) * 360)

namespace Spinner2

/-- `SEGMENTS = 8` of the second spinner (src/components/LiquedGalas.tsx line 459). -/
def SEGMENTS : ℕ := 8

/-- `segAngle = 360 / SEGMENTS` (LiquedGalas.tsx line 460). -/
def segAngle : ℚ := 360 / (SEGMENTS : ℚ)

/-- LiquedGalas.tsx line 487: `const current = ((rotation.value % 360) + 360) % 360;`. -/
def currentAngle (r : ℚ) : ℚ :=
  jsMod (jsMod r 360 + 360) 360

/-- LiquedGalas.tsx line 489: `targetCenterFromZero = targetIndex * segAngle + segAngle / 2`. -/
def targetCenterFromZero (targetIndex : ℕ) : ℚ :=
  (targetIndex : ℚ) * segAngle + segAngle / 2

/-- LiquedGalas.tsx lines 493-495: `baseDelta = current + targetCenterFromZero`,
`spins = 5`, `toValue = rotation.value - baseDelta - spins * 360`. -/
def spinToValue (r : ℚ) (targetIndex : ℕ) : ℚ :=
  let baseDelta := currentAngle r + targetCenterFromZero targetIndex
  let spins : ℚ := 5
  r - baseDelta - spins * 360

/-- The observable outcome of the second spinner's `spin`
(LiquedGalas.tsx lines 481-507): animation target plus the callback pair
`(targetIndex, data[targetIndex])` (line 503). -/
def spin (r : ℚ) (targetIndex : ℕ) (data : List (Option SpinnerItem)) : SpinResult :=
  { toValue := spinToValue r targetIndex,
    selectedIndex := targetIndex,
    selectedItem := data.getD targetIndex none }

/-- The `data` memo of the second spinner (LiquedGalas.tsx lines 464-471),
textually identical to the first spinner's. -/
def dataFn (items : List (Option SpinnerItem)) : List (Option SpinnerItem) :=
  if items.length ≠ SEGMENTS then
    let filled := items ++ List.replicate (SEGMENTS - items.length) none
    filled.take SEGMENTS
  else items

end Spinner2

/-- Book-keeping record for the heap behavior of the `data` memo:
`result` is the returned list, `callerAfter` the caller's array after the
call, and `aliasesCaller` whether the returned list is the caller's own
array object. -/
structure DataEffect where
  result : List (Option SpinnerItem)
  callerAfter : List (Option SpinnerItem)
  aliasesCaller : Bool

/-- The `data` computation of src/unnamed/part_001 (lines 149-156) with its
heap effects made explicit: `const filled = [...items]` allocates a fresh
copy, the only element writes (`filled.push(null)`) hit that copy, and
`filled.slice(0, 8)` allocates yet another array, so in the normalization
branch the returned list is fresh and the caller's array is untouched; the
`else` branch returns the caller's array itself (`return items`). -/
def dataFnEffect (items : List (Option SpinnerItem)) : DataEffect :=
  if items.length ≠ Spinner.SEGMENTS then
    let filled := items ++ List.replicate (Spinner.SEGMENTS - items.length) none
    { result := filled.take Spinner.SEGMENTS, callerAfter := items, aliasesCaller := false }
  else
    { result := items, callerAfter := items, aliasesCaller := true }

section ModLemmas

theorem jsMod_nonneg (a : ℚ) (ha : 0 ≤ a) : 0 ≤ jsMod a 360 := by
  have hq : 0 ≤ a / 360 := div_nonneg ha (by norm_num)
  have h1 : ((⌊a / 360⌋ : ℤ) : ℚ) ≤ a / 360 := Int.floor_le _
  have h1' : ((⌊a / 360⌋ : ℤ) : ℚ) * 360 ≤ a := (le_div_iff₀ (by norm_num)).mp h1
  simp only [jsMod, qtrunc, if_pos hq]
  linarith

theorem jsMod_lt (a : ℚ) : jsMod a 360 < 360 := by
  by_cases hq : 0 ≤ a / 360
  · have h2 : a / 360 < (⌊a / 360⌋ : ℚ) + 1 := Int.lt_floor_add_one _
    have h2' : a < ((⌊a / 360⌋ : ℚ) + 1) * 360 := (div_lt_iff₀ (by norm_num)).mp h2
    simp only [jsMod, qtrunc, if_pos hq]
    linarith
  · have h1 : a / 360 ≤ ((⌈a / 360⌉ : ℤ) : ℚ) := Int.le_ceil _
    have h1' : a ≤ ((⌈a / 360⌉ : ℤ) : ℚ) * 360 := (div_le_iff₀ (by norm_num)).mp h1
    simp only [jsMod, qtrunc, if_neg hq]
    linarith

theorem jsMod_gt (a : ℚ) : -360 < jsMod a 360 := by
  by_cases hq : 0 ≤ a / 360
  · have h1 : ((⌊a / 360⌋ : ℤ) : ℚ) ≤ a / 360 := Int.floor_le _
    have h1' : ((⌊a / 360⌋ : ℤ) : ℚ) * 360 ≤ a := (le_div_iff₀ (by norm_num)).mp h1
    simp only [jsMod, qtrunc, if_pos hq]
    linarith
  · have h2 : ((⌈a / 360⌉ : ℤ) : ℚ) < a / 360 + 1 := Int.ceil_lt_add_one _
    have h2' : ((⌈a / 360⌉ : ℤ) : ℚ) * 360 < (a / 360 + 1) * 360 := by
      have : (0 : ℚ) < 360 := by norm_num
      exact mul_lt_mul_of_pos_right h2 this
    have h3 : (a / 360 + 1) * 360 = a + 360 := by field_simp
    simp only [jsMod, qtrunc, if_neg hq]
    nlinarith

theorem currentAngle_nonneg (r : ℚ) : 0 ≤ Spinner.currentAngle r :=
  jsMod_nonneg _ (by linarith [jsMod_gt r])

theorem currentAngle_lt (r : ℚ) : Spinner.currentAngle r < 360 :=
  jsMod_lt _

theorem currentAngle_sub_int (r : ℚ) :
    ∃ k : ℤ, Spinner.currentAngle r = r - 360 * (k : ℚ) := by
  refine ⟨qtrunc (r / 360) + qtrunc ((jsMod r 360 + 360) / 360) - 1, ?_⟩
  simp only [Spinner.currentAngle, jsMod]
  push_cast
  ring

theorem currentAngle_eq_of (x y : ℚ) (m : ℤ) (h0 : 0 ≤ y) (h1 : y < 360)
    (hx : x = y + 360 * (m : ℚ)) : Spinner.currentAngle x = y := by
  obtain ⟨k, hk⟩ := currentAngle_sub_int x
  have hb0 := currentAngle_nonneg x
  have hb1 := currentAngle_lt x
  have hd : Spinner.currentAngle x - y = 360 * ((m - k : ℤ) : ℚ) := by
    rw [hk, hx]; push_cast; ring
  have l1 : (-1 : ℚ) < ((m - k : ℤ) : ℚ) := by nlinarith
  have l2 : ((m - k : ℤ) : ℚ) < 1 := by nlinarith
  have i1 : (-1 : ℤ) < m - k := by exact_mod_cast l1
  have i2 : m - k < 1 := by exact_mod_cast l2
  have hz : m - k = 0 := by omega
  have : Spinner.currentAngle x - y = 0 := by rw [hd, hz]; norm_num
  linarith

end ModLemmas

section ModLemmasDerived

theorem targetCenterFromZero_eq (i : ℕ) :
    Spinner.targetCenterFromZero i = (i : ℚ) * 45 + 22.5 := by
  norm_num [Spinner.targetCenterFromZero, Spinner.segAngle, Spinner.SEGMENTS]

theorem targetCenterFromZero_pos (i : ℕ) : 0 < Spinner.targetCenterFromZero i := by
  rw [targetCenterFromZero_eq]
  have : (0 : ℚ) ≤ (i : ℚ) := Nat.cast_nonneg i
  nlinarith

theorem targetCenterFromZero_le (i : ℕ) (h : i < 8) :
    Spinner.targetCenterFromZero i ≤ 337.5 := by
  rw [targetCenterFromZero_eq]
  have hi : (i : ℚ) ≤ 7 := by exact_mod_cast Nat.lt_succ_iff.mp h
  nlinarith

theorem currentAngle_zero : Spinner.currentAngle 0 = 0 :=
  currentAngle_eq_of _ _ 0 (by norm_num) (by norm_num) (by norm_num)

end ModLemmasDerived

/-- C1: for every prior rotation `r` and target index in `[0,8)`, the spin
computation sets the rotation target to
`r − (norm(r) + targetCenter + 5·360)` with `norm(r) = ((r % 360) + 360) % 360`
and `targetCenter = targetIndex·45 + 22.5`, and the resulting orientation
satisfies `(newRotation + targetCenter) ≡ 0 (mod 360)`: the target slice's
center lands exactly at the fixed pointer, however large positive or
negative `r` is. -/
theorem spin_lands_target_center_at_pointer (r : ℚ) (i : ℕ) (h : i < 8) :
    Spinner.spinToValue r i =
      r - (Spinner.currentAngle r + Spinner.targetCenterFromZero i + 5 * 360) ∧
    Spinner.targetCenterFromZero i = (i : ℚ) * 45 + 22.5 ∧
    Spinner.currentAngle r = jsMod (jsMod r 360 + 360) 360 ∧
    ∃ m : ℤ, Spinner.spinToValue r i + Spinner.targetCenterFromZero i = 360 * (m : ℚ) := by
  refine ⟨by simp only [Spinner.spinToValue]; ring, targetCenterFromZero_eq i, rfl, ?_⟩
  obtain ⟨k, hk⟩ := currentAngle_sub_int r
  refine ⟨k - 5, ?_⟩
  simp only [Spinner.spinToValue]
  rw [hk]
  push_cast
  ring

/-- Witness for C1 at the concrete prior rotation `-912` and target index 3. -/
theorem spin_lands_target_center_at_pointer_witness :
    (3 : ℕ) < 8 ∧
    (Spinner.spinToValue (-912) 3 =
      -912 - (Spinner.currentAngle (-912) + Spinner.targetCenterFromZero 3 + 5 * 360) ∧
    Spinner.targetCenterFromZero 3 = ((3 : ℕ) : ℚ) * 45 + 22.5 ∧
    Spinner.currentAngle (-912) = jsMod (jsMod (-912) 360 + 360) 360 ∧
    ∃ m : ℤ, Spinner.spinToValue (-912) 3 + Spinner.targetCenterFromZero 3 = 360 * (m : ℚ)) :=
  ⟨by norm_num, spin_lands_target_center_at_pointer (-912) 3 (by norm_num)⟩

/-- C2 is false as stated: at prior rotation 0 and target index 0, normalizing
the landing rotation to `[0,360)` yields 337.5, not the target center 22.5;
the same happens for the spec-modelled `computeLandingRotation` at
`k = 0`. -/
theorem landing_normalization_counterexample :
    Spinner.currentAngle (Spinner.spinToValue 0 0) = 337.5 ∧
    Spinner.currentAngle (computeLandingRotation 0 0 0) = 337.5 ∧
    Spinner.targetCenterFromZero 0 = 22.5 ∧
    Spinner.currentAngle (Spinner.spinToValue 0 0) ≠ Spinner.targetCenterFromZero 0 := by
  have htc : Spinner.targetCenterFromZero 0 = 22.5 := by
    rw [targetCenterFromZero_eq]; norm_num
  have hv : Spinner.spinToValue 0 0 = -1822.5 := by
    simp only [Spinner.spinToValue]
    rw [currentAngle_zero, htc]
    norm_num
  have hv0 : computeLandingRotation 0 0 0 = -22.5 := by
    simp only [computeLandingRotation]
    rw [currentAngle_zero, htc]
    norm_num
  have h1 : Spinner.currentAngle (Spinner.spinToValue 0 0) = 337.5 := by
    rw [hv]
    exact currentAngle_eq_of _ _ (-6) (by norm_num) (by norm_num) (by norm_num)
  have h2 : Spinner.currentAngle (computeLandingRotation 0 0 0) = 337.5 := by
    rw [hv0]
    exact currentAngle_eq_of _ _ (-1) (by norm_num) (by norm_num) (by norm_num)
  exact ⟨h1, h2, htc, by rw [h1, htc]; norm_num⟩

/-- C2 amended: for every prior rotation `r`, every target index in `[0,8)`
and every extra-full-spins count `k`, normalizing the landing rotation to
`[0,360)` yields `360 − targetCenter` (the reflex complement of the target
center, placing the center at the pointer), not `targetCenter` itself;
independent of `k`, and the source's `spin` is the `k = 5` instance. -/
theorem landing_normalization_eq_reflex_complement (r : ℚ) (i k : ℕ) (h : i < 8) :
    Spinner.currentAngle (computeLandingRotation r i k) =
      360 - Spinner.targetCenterFromZero i ∧
    computeLandingRotation r i 5 = Spinner.spinToValue r i ∧
    Spinner.currentAngle (Spinner.spinToValue r i) =
      360 - Spinner.targetCenterFromZero i := by
  have htc0 : 0 < Spinner.targetCenterFromZero i := targetCenterFromZero_pos i
  have htc1 : Spinner.targetCenterFromZero i ≤ 337.5 := targetCenterFromZero_le i h
  obtain ⟨m, hm⟩ := currentAngle_sub_int r
  have key : ∀ k' : ℕ, Spinner.currentAngle (computeLandingRotation r i k') =
      360 - Spinner.targetCenterFromZero i := by
    intro k'
    apply currentAngle_eq_of _ _ (m - k' - 1) (by linarith) (by linarith)
    simp only [computeLandingRotation]
    rw [hm]
    push_cast
    ring
  have h5 : computeLandingRotation r i 5 = Spinner.spinToValue r i := by
    simp only [computeLandingRotation, Spinner.spinToValue]
    push_cast
    ring
  exact ⟨key k, h5, by rw [← h5]; exact key 5⟩

/-- Witness for the amended C2 at prior rotation 7383.5, target index 0,
extra spins 2. -/
theorem landing_normalization_eq_reflex_complement_witness :
    (0 : ℕ) < 8 ∧
    (Spinner.currentAngle (computeLandingRotation 7383.5 0 2) =
      360 - Spinner.targetCenterFromZero 0 ∧
    computeLandingRotation 7383.5 0 5 = Spinner.spinToValue 7383.5 0 ∧
    Spinner.currentAngle (Spinner.spinToValue 7383.5 0) =
      360 - Spinner.targetCenterFromZero 0) :=
  ⟨by norm_num, landing_normalization_eq_reflex_complement 7383.5 0 2 (by norm_num)⟩

/-- C3 is false as stated: in the §8 scenario (prior rotation 0, target
index 3, five extra spins) the new rotation value is indeed `-1957.5`, but
normalizing it via `((x % 360) + 360) % 360` gives 202.5, not 157.5. -/
theorem scenario_counterexample :
    Spinner.spinToValue 0 3 = -1957.5 ∧
    Spinner.currentAngle (Spinner.spinToValue 0 3) = 202.5 ∧
    Spinner.currentAngle (Spinner.spinToValue 0 3) ≠ 157.5 := by
  have hv : Spinner.spinToValue 0 3 = -1957.5 := by
    simp only [Spinner.spinToValue]
    rw [currentAngle_zero, targetCenterFromZero_eq]
    norm_num
  have h1 : Spinner.currentAngle (Spinner.spinToValue 0 3) = 202.5 := by
    rw [hv]
    exact currentAngle_eq_of _ _ (-6) (by norm_num) (by norm_num) (by norm_num)
  exact ⟨hv, h1, by rw [h1]; norm_num⟩

/-- C3 amended: with prior rotation 0, target index 3 and five extra spins,
the delta is `0 + 157.5 + 1800 = 1957.5`, the new rotation value is
`-1957.5`, and its normalization is `202.5 = 360 − 157.5`; the absolute
orientation therefore satisfies `202.5 + 157.5 = 360 ≡ 0 (mod 360)`, so the
center of slice 3 sits at the pointer. -/
theorem scenario_amended :
    Spinner.currentAngle 0 + Spinner.targetCenterFromZero 3 + 5 * 360 = 1957.5 ∧
    Spinner.spinToValue 0 3 = -1957.5 ∧
    Spinner.currentAngle (Spinner.spinToValue 0 3) = 202.5 ∧
    Spinner.targetCenterFromZero 3 = 157.5 ∧
    Spinner.currentAngle (Spinner.spinToValue 0 3) + Spinner.targetCenterFromZero 3 = 360 := by
  have htc : Spinner.targetCenterFromZero 3 = 157.5 := by
    rw [targetCenterFromZero_eq]; norm_num
  have hv : Spinner.spinToValue 0 3 = -1957.5 := by
    simp only [Spinner.spinToValue]
    rw [currentAngle_zero, htc]
    norm_num
  have h1 : Spinner.currentAngle (Spinner.spinToValue 0 3) = 202.5 := by
    rw [hv]
    exact currentAngle_eq_of _ _ (-6) (by norm_num) (by norm_num) (by norm_num)
  refine ⟨?_, hv, h1, htc, ?_⟩
  · rw [currentAngle_zero, htc]; norm_num
  · rw [h1, htc]; norm_num

/-- C4: the completion callback receives exactly the precomputed target
index and the item stored at that index in the normalized sequence — these
outputs do not depend on the rotation value at all (so in particular not on
the final rendered angle), and in the §8 scenario the callback reports
`(3, item[3])`. -/
theorem spin_callback_reports_precomputed (r rFinal : ℚ) (i : ℕ)
    (data : List (Option SpinnerItem)) :
    (Spinner.spin r i data).selectedIndex = i ∧
    (Spinner.spin r i data).selectedItem = data.getD i none ∧
    (Spinner.spin r i data).selectedIndex = (Spinner.spin rFinal i data).selectedIndex ∧
    (Spinner.spin r i data).selectedItem = (Spinner.spin rFinal i data).selectedItem ∧
    (Spinner.spin 0 3 (Spinner.dataFn DEFAULT_ITEMS)).selectedIndex = 3 ∧
    (Spinner.spin 0 3 (Spinner.dataFn DEFAULT_ITEMS)).selectedItem =
      DEFAULT_ITEMS.getD 3 none :=
  ⟨rfl, rfl, rfl, rfl, rfl, rfl⟩

/-- C5: the item-sequence normalization right-pads any shorter input with
`null` slots to exactly length 8, keeping every original element at its
original position, and truncates any longer input to its first 8
elements. -/
theorem data_normalization (items : List (Option SpinnerItem)) :
    (items.length < 8 →
      Spinner.dataFn items = items ++ List.replicate (8 - items.length) none ∧
      (Spinner.dataFn items).length = 8 ∧
      ∀ j, j < items.length → (Spinner.dataFn items).getD j none = items.getD j none) ∧
    (items.length > 8 → Spinner.dataFn items = items.take 8) := by
  constructor
  · intro hlt
    have hne : items.length ≠ 8 := by omega
    have htotal : (items ++ List.replicate (8 - items.length) none).length = 8 := by
      simp only [List.length_append, List.length_replicate]; omega
    have heq : Spinner.dataFn items = items ++ List.replicate (8 - items.length) none := by
      simp only [Spinner.dataFn, Spinner.SEGMENTS]
      rw [if_pos hne]
      exact List.take_of_length_le (le_of_eq htotal)
    refine ⟨heq, by rw [heq]; exact htotal, ?_⟩
    intro j hj
    rw [heq]
    exact List.getD_append _ _ _ _ hj
  · intro hgt
    have hne : items.length ≠ 8 := by omega
    have hzero : 8 - items.length = 0 := by omega
    simp only [Spinner.dataFn, Spinner.SEGMENTS]
    rw [if_pos hne, hzero, List.replicate_zero, List.append_nil]

/-- Witness for C5: a length-3 input is padded to 8 with `null`s in place,
and a length-9 input is truncated to its first 8 entries. -/
theorem data_normalization_witness :
    (([some ⟨("k"), some ("🔑"), none⟩, none, some ⟨("b"), some ("💰"), none⟩] :
        List (Option SpinnerItem)).length < 8 ∧
      Spinner.dataFn [some ⟨("k"), some ("🔑"), none⟩, none, some ⟨("b"), some ("💰"), none⟩] =
        [some ⟨("k"), some ("🔑"), none⟩, none, some ⟨("b"), some ("💰"), none⟩] ++
          List.replicate 5 none ∧
      (Spinner.dataFn [some ⟨("k"), some ("🔑"), none⟩, none,
        some ⟨("b"), some ("💰"), none⟩]).length = 8 ∧
      (Spinner.dataFn [some ⟨("k"), some ("🔑"), none⟩, none,
        some ⟨("b"), some ("💰"), none⟩]).getD 0 none =
        ([some ⟨("k"), some ("🔑"), none⟩, none,
          some ⟨("b"), some ("💰"), none⟩] : List (Option SpinnerItem)).getD 0 none) ∧
    ((List.replicate 9 (none : Option SpinnerItem)).length > 8 ∧
      Spinner.dataFn (List.replicate 9 none) =
        (List.replicate 9 (none : Option SpinnerItem)).take 8) := by
  have hshort := (data_normalization
    [some ⟨("k"), some ("🔑"), none⟩, none, some ⟨("b"), some ("💰"), none⟩]).1
    (by norm_num)
  have hlong := (data_normalization (List.replicate 9 none)).2 (by norm_num)
  exact ⟨⟨by norm_num, hshort.1, hshort.2.1, hshort.2.2 0 (by norm_num)⟩,
    by norm_num, hlong⟩

/-- C8: every spin strictly decreases the stored rotation value, by at least
the five extra full turns (1800 degrees); the accumulated value never wraps
back upward. -/
theorem spin_monotonic_decrease (r : ℚ) (i : ℕ) (h : i < 8) :
    Spinner.spinToValue r i < r ∧ Spinner.spinToValue r i ≤ r - 5 * 360 := by
  have h0 := currentAngle_nonneg r
  have htc := targetCenterFromZero_pos i
  simp only [Spinner.spinToValue]
  constructor <;> linarith

/-- Witness for C8 at prior rotation 7383.5 and target index 0. -/
theorem spin_monotonic_decrease_witness :
    (0 : ℕ) < 8 ∧
    (Spinner.spinToValue 7383.5 0 < 7383.5 ∧
      Spinner.spinToValue 7383.5 0 ≤ 7383.5 - 5 * 360) :=
  ⟨by norm_num, spin_monotonic_decrease 7383.5 0 (by norm_num)⟩

/-- C9: the two Spinner implementations in the repository compute identical
landing rotations, identical `(selectedIndex, selectedItem)` callback pairs,
and apply the identical length-8 normalization to the item sequence. -/
theorem spinner_implementations_equivalent (r : ℚ) (i : ℕ)
    (items d : List (Option SpinnerItem)) :
    Spinner.spinToValue r i = Spinner2.spinToValue r i ∧
    Spinner.spin r i d = Spinner2.spin r i d ∧
    Spinner.dataFn items = Spinner2.dataFn items :=
  ⟨rfl, rfl, rfl⟩

/-- C10: normalization never mutates the caller's sequence — the caller's
array keeps its length and elements; the returned list is the caller's own
array exactly when the input already has length 8 (identity), and otherwise
is a fresh list; and the effect-annotated computation returns the very value
both spinners' `data` memos compute. -/
theorem data_normalization_frame (items : List (Option SpinnerItem)) :
    (dataFnEffect items).callerAfter = items ∧
    ((dataFnEffect items).aliasesCaller = true ↔ items.length = 8) ∧
    (items.length = 8 → (dataFnEffect items).result = items) ∧
    (dataFnEffect items).result = Spinner.dataFn items ∧
    (dataFnEffect items).result = Spinner2.dataFn items := by
  by_cases h : items.length = 8 <;>
    simp [dataFnEffect, Spinner.dataFn, Spinner2.dataFn,
      Spinner.SEGMENTS, Spinner2.SEGMENTS, h]

/-- Witness for C10 on the concrete length-8 default item list. -/
theorem data_normalization_frame_witness :
    DEFAULT_ITEMS.length = 8 ∧
    (dataFnEffect DEFAULT_ITEMS).callerAfter = DEFAULT_ITEMS ∧
    (dataFnEffect DEFAULT_ITEMS).aliasesCaller = true ∧
    (dataFnEffect DEFAULT_ITEMS).result = DEFAULT_ITEMS :=
  ⟨rfl, (data_normalization_frame DEFAULT_ITEMS).1,
    ((data_normalization_frame DEFAULT_ITEMS).2.1).mpr rfl,
    (data_normalization_frame DEFAULT_ITEMS).2.2.1 rfl⟩

section GeometryLemmas

theorem arcFlags_donut (cx cy rOuter rInner s e : ℚ) :
    arcFlags (donutSlicePath cx cy rOuter rInner s e) =
      [largeArcFlag s e, largeArcFlag s e] := by
  simp [arcFlags, donutSlicePath, List.filterMap]

theorem arcFlags_wedge (cx cy rOuter tipRadius s e : ℚ) :
    arcFlags (Spinner.roundedWedgePath cx cy rOuter tipRadius s e) =
      [largeArcFlag s e, 0] := by
  simp [arcFlags, Spinner.roundedWedgePath, List.filterMap]

theorem segStart_eq (i : ℕ) : Spinner.segStart i = (i : ℚ) * 45 := by
  norm_num [Spinner.segStart, Spinner.segAngle, Spinner.SEGMENTS]

theorem segEnd_eq (i : ℕ) : Spinner.segEnd i = (i : ℚ) * 45 + 45 := by
  norm_num [Spinner.segEnd, Spinner.segStart, Spinner.segAngle, Spinner.SEGMENTS]

end GeometryLemmas

/-- C6 is false as stated: for a tapered wedge spanning 200° (> 180°), the
claim demands every arc command carry large-arc flag 1, yet the rounded-tip
arc of `roundedWedgePath` always carries flag 0. -/
theorem large_arc_flag_counterexample :
    ¬ (∀ f ∈ arcFlags (Spinner.roundedWedgePath 0 0 10 2 0 200),
        (f = 0 ↔ (200 : ℚ) - 0 ≤ 180)) := by
  intro hAll
  have hmem : (0 : ℕ) ∈ arcFlags (Spinner.roundedWedgePath 0 0 10 2 0 200) := by
    rw [arcFlags_wedge]
    simp
  have := (hAll 0 hmem).mp rfl
  norm_num at this

/-- C6 amended: the arc commands that sweep the slice's own span — both
boundary arcs of a donut slice and the outer arc of a tapered wedge — carry
large-arc flag 0 exactly when the span `e − s` is ≤ 180° and flag 1
otherwise; the tapered wedge's rounded-tip arc always carries flag 0 (its
own endpoints span at most 8°, so the minor sweep is always correct for
it). -/
theorem large_arc_flag_amended (cx cy rOuter rInner tipRadius s e : ℚ) :
    arcFlags (donutSlicePath cx cy rOuter rInner s e) =
      [largeArcFlag s e, largeArcFlag s e] ∧
    arcFlags (Spinner.roundedWedgePath cx cy rOuter tipRadius s e) =
      [largeArcFlag s e, 0] ∧
    (largeArcFlag s e = 0 ↔ e - s ≤ 180) ∧
    (largeArcFlag s e = 1 ↔ ¬ (e - s ≤ 180)) := by
  refine ⟨arcFlags_donut cx cy rOuter rInner s e,
    arcFlags_wedge cx cy rOuter tipRadius s e, ?_, ?_⟩
  · unfold largeArcFlag
    split_ifs with hsp <;> simp [hsp]
  · unfold largeArcFlag
    split_ifs with hsp <;> simp [hsp]

/-- C7: `slices` returns exactly 8 closed path descriptions; the `i`-th
entry is built from the drawn angles `i·45 + 2` and `(i+1)·45 − 2`
(the sector `[i·45, (i+1)·45)` inset symmetrically by half the 4° gap), and
the 8 underlying sectors of width 45 partition `[0, 360)`. -/
theorem slices_partition (size : ℚ) (tapered : Bool) :
    (Spinner.slices size tapered).length = 8 ∧
    (∀ i, i < 8 →
      (Spinner.slices size tapered)[i]? = some (Spinner.sliceEntry size tapered i) ∧
      (Spinner.sliceEntry size tapered i).path.getLast? = some PathCmd.close ∧
      Spinner.sliceStart i = (i : ℚ) * 45 + 2 ∧
      Spinner.sliceEnd i = ((i : ℚ) + 1) * 45 - 2 ∧
      Spinner.segStart i = (i : ℚ) * 45 ∧
      Spinner.segEnd i = ((i : ℚ) + 1) * 45) ∧
    (∀ x : ℚ, 0 ≤ x → x < 360 →
      ∃! i : ℕ, i < 8 ∧ Spinner.segStart i ≤ x ∧ x < Spinner.segEnd i) := by
  refine ⟨by simp [Spinner.slices], ?_, ?_⟩
  · intro i hi
    refine ⟨?_, ?_, ?_, ?_, ?_, ?_⟩
    · simp [Spinner.slices, List.getElem?_map, List.getElem?_range, hi]
    · cases tapered
      · exact rfl
      · exact rfl
    · rw [Spinner.sliceStart, segStart_eq]
      norm_num [Spinner.gapDeg]
    · rw [Spinner.sliceEnd, segEnd_eq]
      norm_num [Spinner.gapDeg]
      ring
    · exact segStart_eq i
    · rw [segEnd_eq]; ring
  · intro x hx0 hx1
    have h45 : (0 : ℚ) < 45 := by norm_num
    have hq0 : 0 ≤ x / 45 := div_nonneg hx0 (le_of_lt h45)
    have hf0 : (0 : ℤ) ≤ ⌊x / 45⌋ := Int.floor_nonneg.mpr hq0
    have hcast : ((⌊x / 45⌋.toNat : ℕ) : ℚ) = ((⌊x / 45⌋ : ℤ) : ℚ) := by
      exact_mod_cast congrArg (fun z : ℤ => (z : ℚ)) (Int.toNat_of_nonneg hf0)
    have hfl : ((⌊x / 45⌋ : ℤ) : ℚ) ≤ x / 45 := Int.floor_le _
    have hfu : x / 45 < ((⌊x / 45⌋ : ℤ) : ℚ) + 1 := Int.lt_floor_add_one _
    refine ⟨⌊x / 45⌋.toNat, ⟨?_, ?_, ?_⟩, ?_⟩
    · have hlt8 : ⌊x / 45⌋ < 8 := by
        apply Int.floor_lt.mpr
        rw [div_lt_iff₀ h45] at *
        push_cast
        linarith [(div_lt_iff₀ h45).mpr (show x < 8 * 45 by linarith)]
      omega
    · rw [segStart_eq, hcast]
      calc ((⌊x / 45⌋ : ℤ) : ℚ) * 45 ≤ (x / 45) * 45 := by nlinarith
        _ = x := by field_simp
    · rw [segEnd_eq, hcast]
      have : x / 45 * 45 < (((⌊x / 45⌋ : ℤ) : ℚ) + 1) * 45 := by nlinarith
      have hxeq : x / 45 * 45 = x := by field_simp
      linarith [hxeq ▸ this]
    · rintro j ⟨hj8, hj1, hj2⟩
      rw [segStart_eq] at hj1
      rw [segEnd_eq] at hj2
      have hjfl : ⌊x / 45⌋ = (j : ℤ) := by
        rw [Int.floor_eq_iff]
        constructor
        · push_cast
          rw [le_div_iff₀ h45]
          exact hj1
        · push_cast
          rw [div_lt_iff₀ h45]
          linarith
      omega

/-- Witness for C7: slice 2 of a 260-px tapered wheel, and the point 100°
falling in exactly one sector. -/
theorem slices_partition_witness :
    ((2 : ℕ) < 8 ∧
      ((Spinner.slices 260 true)[2]? = some (Spinner.sliceEntry 260 true 2) ∧
        (Spinner.sliceEntry 260 true 2).path.getLast? = some PathCmd.close ∧
        Spinner.sliceStart 2 = ((2 : ℕ) : ℚ) * 45 + 2 ∧
        Spinner.sliceEnd 2 = (((2 : ℕ) : ℚ) + 1) * 45 - 2 ∧
        Spinner.segStart 2 = ((2 : ℕ) : ℚ) * 45 ∧
        Spinner.segEnd 2 = (((2 : ℕ) : ℚ) + 1) * 45)) ∧
    (0 ≤ (100 : ℚ) ∧ (100 : ℚ) < 360 ∧
      ∃! i : ℕ, i < 8 ∧ Spinner.segStart i ≤ 100 ∧ 100 < Spinner.segEnd i) :=
  ⟨⟨by norm_num, (slices_partition 260 true).2.1 2 (by norm_num)⟩,
    by norm_num, by norm_num, (slices_partition 260 true).2.2 100 (by norm_num) (by norm_num)⟩
